import Mathlib

/-
Verification development for the db_migrations repository.

The migration scripts (src/scripts/migrate_data.py, record-at-a-time, and
src/scripts/migrate_with_pandas.py, columnar) are shallowly embedded below.
Python strings that may be NULL in the legacy schema are modelled as
`Option String` (Python `None` = `none`); Python truthiness of a string
(`if not s`) is falsiness of `none` and of `""`.  Decimal values are
modelled as rationals.  Timestamps, the random stock quantity and log
message texts are not modelled: no claim below depends on them; warning
log COUNTS that a claim mentions are modelled as counters.
-/

namespace DBMig

/-! ## Python string primitives -/

/-- ASCII whitespace stripped by Python `str.strip()` (the inputs in this
repository contain only ASCII; the remaining rare whitespace code points
that CPython also strips are irrelevant here). -/
def isSpaceChar (c : Char) : Bool :=
  c = ' ' || c = '\t' || c = '\n' || c = '\r'

/-- Python `str.strip()`. -/
def pyStrip (s : String) : String :=
  String.mk (((s.data.dropWhile isSpaceChar).reverse.dropWhile isSpaceChar).reverse)

/-- Python `str.lower()` (ASCII). -/
def pyLower (s : String) : String :=
  String.mk (s.data.map Char.toLower)

/-- Python `str.upper()` (ASCII). -/
def pyUpper (s : String) : String :=
  String.mk (s.data.map Char.toUpper)

/-- Python `str.capitalize()`: first character uppercased, all remaining
characters lowercased. -/
def pyCapitalize (s : String) : String :=
  match s.data with
  | [] => ""
  | c :: cs => String.mk (c.toUpper :: cs.map Char.toLower)

/-- Worker for `pyTitle`: the Boolean says whether the previous character
was alphabetic (then we are inside a word). -/
def titleGo : Bool → List Char → List Char
  | _, [] => []
  | prevAlpha, c :: cs =>
    if c.isAlpha then
      (if prevAlpha then c.toLower else c.toUpper) :: titleGo true cs
    else
      c :: titleGo false cs

/-- Python / pandas `str.title()`: the first letter of every maximal run of
letters is uppercased, the other letters lowercased. -/
def pyTitle (s : String) : String :=
  String.mk (titleGo false s.data)

/-- Python `s[:n]`. -/
def pySlice (s : String) (n : Nat) : String :=
  String.mk (s.data.take n)

/-- Worker for `pyReplace`, structurally recursive on a fuel argument so
that it reduces inside the kernel; the fuel is instantiated with the input
length, which bounds the number of steps.  Replaces non-overlapping
occurrences left to right, like Python `str.replace` (its patterns here
are always non-empty). -/
def listReplaceFuel (pat rep : List Char) : Nat → List Char → List Char
  | 0, l => l
  | _ + 1, [] => []
  | f + 1, c :: cs =>
    if pat.length ≠ 0 ∧ (c :: cs).take pat.length = pat then
      rep ++ listReplaceFuel pat rep f ((c :: cs).drop pat.length)
    else
      c :: listReplaceFuel pat rep f cs

/-- Python `s.replace(pat, rep)` for a non-empty pattern. -/
def pyReplace (s pat rep : String) : String :=
  String.mk (listReplaceFuel pat.data rep.data s.data.length s.data)

/-- Python `str.isdigit` restricted to ASCII decimal digits (the only
digits produced by the cleaning regexes below). -/
def isDigitChar (c : Char) : Bool :=
  '0' ≤ c && c ≤ '9'

/-- Numeric value of a list of ASCII digits (most significant first). -/
def natOfDigits (cs : List Char) : Nat :=
  cs.foldl (fun acc c => acc * 10 + (c.toNat - '0'.toNat)) 0

/-- Python `f"{id:05d}"`: decimal rendering left-padded with zeros to
width 5. -/
def pad5 (n : Nat) : String :=
  let s := toString n
  String.mk (List.replicate (5 - s.length) '0') ++ s

/-! ## Field normalizers (migrate_data.py) -/

/-- Target order-status enumeration (src/models_new/order_models.py,
`OrderStatusEnum`). -/
inductive OrderStatusEnum where
  | PENDING
  | PROCESSING
  | SHIPPED
  | DELIVERED
  | CANCELLED
  | REFUNDED
deriving DecidableEq

/-- `normalize_category_name` (migrate_data.py lines 46-50): falsy input
maps to "Unknown", otherwise `name.strip().capitalize()`. -/
def normalize_category_name (name : Option String) : String :=
  match name with
  | none => "Unknown"
  | some s => if s = "" then "Unknown" else pyCapitalize (pyStrip s)

/-- Characters kept by `re.sub(r"[^0-9.-]", "", price_str)`: digits, dots
and dashes, wherever they occur. -/
def cleanPrice (s : String) : String :=
  String.mk (s.data.filter (fun c => isDigitChar c || c = '.' || c = '-'))

/-- Python `s.split('-')[0]`: the characters before the first dash. -/
def firstDashComponent (s : String) : String :=
  String.mk (s.data.takeWhile (fun c => c ≠ '-'))

/-- A Python `Decimal` value as produced by this code path: `units` is the
digit string read as an integer and `scale` the number of fractional
digits, denoting `units / 10 ^ scale` (unnormalized, mirroring Decimal's
digits-and-exponent representation; the inputs reaching `Decimal` here
contain no sign, so `units` is a natural number). -/
structure PyDecimal where
  units : Nat
  scale : Nat
deriving DecidableEq

/-- Rational value denoted by a `PyDecimal`. -/
def PyDecimal.toRat (d : PyDecimal) : ℚ :=
  (d.units : ℚ) / (10 : ℚ) ^ d.scale

/-- `Decimal("0.00")`, the default the callers fall back to. -/
def decimalZeroDefault : PyDecimal := { units := 0, scale := 2 }

/-- Python `Decimal(s)` for a string that contains only digits and dots
(after `cleanPrice` and `firstDashComponent` no sign or letter can remain):
the literal is valid iff it has at least one digit and at most one dot;
`Decimal("")`, `Decimal(".")` and multi-dot strings raise
`InvalidOperation`. -/
def pyDecimalUnsigned? (s : String) : Option PyDecimal :=
  let cs := s.data
  if cs.any (fun c => ¬(isDigitChar c || c = '.')) then none
  else if 1 < cs.count '.' then none
  else if ¬ cs.any isDigitChar then none
  else
    let ip := cs.takeWhile (fun c => c ≠ '.')
    let fp := (cs.dropWhile (fun c => c ≠ '.')).drop 1
    some { units := natOfDigits (ip ++ fp), scale := fp.length }

/-- `extract_price_decimal` (migrate_data.py lines 53-70): falsy input and
empty-after-cleaning input give the sentinel; otherwise the part of the
cleaned string before the first dash is fed to `Decimal`, whose
`InvalidOperation` is caught as the sentinel. -/
def extract_price_decimal (price_str : Option String) : Option PyDecimal :=
  match price_str with
  | none => none
  | some s =>
    if s = "" then none
    else
      let cleaned := cleanPrice s
      if cleaned = "" then none
      else pyDecimalUnsigned? (firstDashComponent cleaned)

/-- `map_order_status` (migrate_data.py lines 131-147): falsy input gives
PENDING; otherwise the input is lowercased and stripped and looked up in
fixed lists, defaulting to PENDING. -/
def map_order_status (old_status : Option String) : OrderStatusEnum :=
  match old_status with
  | none => .PENDING
  | some s0 =>
    if s0 = "" then .PENDING
    else
      let s := pyStrip (pyLower s0)
      if s = "pending" || s = "processing" then .PENDING
      else if s = "shipped" || s = "enviado" then .SHIPPED
      else if s = "delivered" || s = "entregado" then .DELIVERED
      else if s = "cancelled" || s = "cancelado" then .CANCELLED
      else .PENDING

/-! ## Address parser (migrate_data.py lines 73-128) -/

/-- The single exception kind `parse_address` can raise: calling
`.split(',')` on `None`. -/
inductive PyErr where
  | attributeError
deriving DecidableEq

/-- Result dictionary of `parse_address`: the five address components.
`state` is `Option String` because the final line of the source writes
`None` into the dictionary when the state entry is falsy. -/
structure AddressParts where
  street : String
  city : String
  state : Option String
  zip_code : String
  country : String
deriving DecidableEq

/-- Word character for the `\b` boundary of Python `re` (ASCII subset
reaching this code). -/
def isWordChar (c : Char) : Bool :=
  c.isAlphanum || c = '_'

/-- Boundary test after a match: end of string or a non-word character. -/
def boundaryOk : List Char → Bool
  | [] => true
  | c :: _ => ¬ isWordChar c

/-- Attempt of `\b\d{5}(?:-\d{4})?\b` at one position (`prev` is the
character before the position, if any).  The optional `-\d{4}` group is
tried greedily first; if its trailing boundary fails the engine backtracks
to the bare five digits, whose trailing boundary (the dash) then holds. -/
def zipTryAt (prev : Option Char) (cs : List Char) : Option (List Char) :=
  if (match prev with | some p => isWordChar p | none => false) then none
  else if (cs.take 5).length = 5 && (cs.take 5).all (fun c => isDigitChar c) then
    let rest := cs.drop 5
    let long :=
      match rest with
      | '-' :: r2 =>
        if (r2.take 4).length = 4 && (r2.take 4).all (fun c => isDigitChar c)
            && boundaryOk (r2.drop 4) then
          some (cs.take 10)
        else none
      | _ => none
    match long with
    | some m => some m
    | none => if boundaryOk rest then some (cs.take 5) else none
  else none

/-- Leftmost-match scan for `zipTryAt`. -/
def zipScan (prev : Option Char) : List Char → Option (List Char)
  | [] => none
  | c :: rest =>
    match zipTryAt prev (c :: rest) with
    | some m => some m
    | none => zipScan (some c) rest

/-- `re.search(r'\b\d{5}(?:-\d{4})?\b', s)` returning `group(0)`. -/
def reSearchZip (s : String) : Option String :=
  (zipScan none s.data).map String.mk

/-- One-position attempt of `\b([A-Z]{2})\b`. -/
def stateTryAt (prev : Option Char) (cs : List Char) : Option (List Char) :=
  if (match prev with | some p => isWordChar p | none => false) then none
  else
    match cs with
    | a :: b :: rest =>
      if ('A' ≤ a && a ≤ 'Z') && ('A' ≤ b && b ≤ 'Z') && boundaryOk rest then
        some [a, b]
      else none
    | _ => none

/-- Leftmost-match scan for `stateTryAt`. -/
def stateScan (prev : Option Char) : List Char → Option (List Char)
  | [] => none
  | c :: rest =>
    match stateTryAt prev (c :: rest) with
    | some m => some m
    | none => stateScan (some c) rest

/-- `re.search(r'\b([A-Z]{2})\b', s)` returning `group(1)`. -/
def reSearchState (s : String) : Option String :=
  (stateScan none s.data).map String.mk

/-- Final cleanup for street/city/zip/country: a falsy or over-long value
becomes "N/A". -/
def cleanField (v : String) : String :=
  if v = "" || 250 < v.length then "N/A" else v

/-- Final cleanup for state: a falsy or over-long value becomes `None`. -/
def cleanStateField (v : String) : Option String :=
  if v = "" || 250 < v.length then none else some v

/-- `parse_address` (migrate_data.py lines 73-128).  NOTE: the source
computes `address_combined.split(',')` BEFORE the `if not address_combined`
guard, so an absent (`None`) input raises `AttributeError`; only the empty
string reaches the guard. -/
def parse_address (address_combined : Option String) : Except PyErr AddressParts :=
  match address_combined with
  | none => .error .attributeError
  | some a =>
    let parts := (a.splitOn ",").map pyStrip
    if a = "" then
      .ok { street := "N/A", city := "N/A", state := some "N/A",
            zip_code := "N/A", country := "N/A" }
    else
      let street0 := parts.headD "N/A"
      let res :=
        if 1 < parts.length then
          let candidate :=
            if 2 < parts.length then parts.getD (parts.length - 2) ""
            else parts.getD (parts.length - 1) ""
          match reSearchZip candidate with
          | some z =>
            let cityState := pyStrip (pyReplace candidate z "")
            match reSearchState cityState with
            | some stt =>
              (pyStrip (pyReplace (pyReplace cityState stt "") "," ""), stt, z, true)
            | none =>
              (pyStrip (pyReplace cityState "," ""), "N/A", z, true)
          | none =>
            (pyStrip (pyReplace candidate "," ""), "N/A", "N/A", false)
        else
          ("N/A", "N/A", "N/A", false)
      let city0 := res.1
      let state0 := res.2.1
      let zip0 := res.2.2.1
      let usedZip := res.2.2.2
      let country0 :=
        if 1 < parts.length && ¬ usedZip then parts.getD (parts.length - 1) ""
        else "USA"
      let street1 := cleanField street0
      let city1 := cleanField city0
      let state1 := cleanStateField state0
      let zip1 := cleanField zip0
      let country1 := cleanField country0
      let city2 := if city1 = "N/A" && 1 < parts.length then parts.getD 1 "" else city1
      .ok { street := pySlice street1 254,
            city := pySlice city2 99,
            state := state1.map (fun v => pySlice v 99),
            zip_code := pySlice zip1 19,
            country := pySlice country1 99 }

/-! ## Columnar (pandas) variants (migrate_with_pandas.py) -/

/-- `normalize_category_name_pd` (migrate_with_pandas.py lines 48-49),
applied element-wise: `series.str.strip().str.title().fillna("Unknown
Category")`.  Only a missing value (NaN) is filled; an empty string stays
empty. -/
def normalize_category_name_pd (name : Option String) : String :=
  match name with
  | none => "Unknown Category"
  | some s => pyTitle (pyStrip s)

/-- Element-wise status mapping of `migrate_orders_and_items_pd`
(migrate_with_pandas.py lines 341-348): an exact, case-sensitive
dictionary lookup followed by `fillna(PENDING)`. -/
def map_order_status_pd (status_text : Option String) : OrderStatusEnum :=
  match status_text with
  | none => .PENDING
  | some t =>
    if t = "pending" || t = "Pending" then .PENDING
    else if t = "PROCESSING" then .PROCESSING
    else if t = "shipped" || t = "Shipped" then .SHIPPED
    else if t = "delivered" || t = "DELIVERED" then .DELIVERED
    else if t = "cancelled" then .CANCELLED
    else if t = "Returned?" then .REFUNDED
    else .PENDING

/-- SKU generation of `migrate_products` (migrate_data.py line 409):
`f"SKU-{old_product.id:05d}-{random.randint(100, 999)}"`.  The second
argument is the drawn value of `random.randint(100, 999)`, an input of the
run rather than a function of the product. -/
def generate_sku (oldId : Nat) (randDraw : Nat) : String :=
  "SKU-" ++ pad5 oldId ++ "-" ++ toString randDraw

/-- SKU generation of `migrate_products_pd` (migrate_with_pandas.py lines
272-273): `"SKU-PD-" + id + "-" + name[:15].replace(' ', '-').upper()`. -/
def generate_sku_pd (oldId : Nat) (productName : String) : String :=
  "SKU-PD-" ++ toString oldId ++ "-" ++ pyUpper (pyReplace (pySlice productName 15) " " "-")

/-! ## Python dicts (the module-level identity maps) -/

/-- Python dict lookup: `m.get(k)` / `k in m`. -/
def dictGet {κ ν : Type} [DecidableEq κ] (m : List (κ × ν)) (k : κ) : Option ν :=
  (m.find? (fun e => e.1 = k)).map (fun e => e.2)

/-- Python dict assignment `m[k] = v`.  The new entry is prepended and
shadows any older entry for `k`; since `dictGet` returns the first match
and lookup is the only operation these identity maps are read with, this
is observationally the same as in-place overwrite. -/
def dictInsert {κ ν : Type} [DecidableEq κ] (m : List (κ × ν)) (k : κ) (v : ν) :
    List (κ × ν) :=
  (k, v) :: m

/-! ## Legacy records (src/models_old/old_models.py) -/

/-- `OldProduct` (fields used by the migration; nullable columns are
`Option`). -/
structure OldProduct where
  id : Nat
  product_name : String
  description : String
  price_str : Option String
  category_name_redundant : Option String
  created_at_str : Option String
deriving DecidableEq

/-- `OldOrder` (fields used by the migration). -/
structure OldOrder where
  id : Nat
  user_identifier_text : Option String
  order_date_str : Option String
  status_text : Option String
  product_name_redundant : Option String
  quantity : Option Int
  unit_price_str_redundant : Option String
deriving DecidableEq

/-! ## Target rows (fields the claims depend on; timestamps and the random
stock quantity are not modelled) -/

/-- Target `Product` row. -/
structure ProductRow where
  id : Nat
  name : String
  sku : String
  price : PyDecimal
  categoryId : Nat
deriving DecidableEq

/-- Target `Address` row (fields read by the orders stage). -/
structure AddressRow where
  id : Nat
  userId : Nat
  isDefaultShipping : Bool
  isDefaultBilling : Bool
deriving DecidableEq

/-! ## Categories and products stages (migrate_data.py lines 170-254 and
355-468)

These two stages are modelled at the granularity of committed rows: in the
executions the claims below quantify over, no rollback ever interleaves
with flushed-but-uncommitted rows of another record, so batch commit
granularity does not change the committed end state (the orders stage,
where it does, is modelled with an explicit transactional session
further down).  The id counters model the database auto-increment
sequences and therefore live in the persistent part of the state; the
identity maps are module-level Python dicts reset at process start. -/

/-- Combined state of the categories and products stages.
`catStore`/`prodStore`/`nextCatId`/`nextProdId` persist across runs
(target database); the three maps are per-process. -/
structure MigState where
  catStore : List (Nat × String)
  prodStore : List ProductRow
  nextCatId : Nat
  nextProdId : Nat
  catMap : List (String × Nat)
  prodIdMap : List (Nat × Nat)
  prodNameMap : List (String × Nat)
deriving DecidableEq

/-- Empty target database and empty maps. -/
def migInit : MigState :=
  { catStore := [], prodStore := [], nextCatId := 1, nextProdId := 1,
    catMap := [], prodIdMap := [], prodNameMap := [] }

/-- Fresh process against an existing target database: the module-level
dicts start empty again. -/
def freshMaps (st : MigState) : MigState :=
  { st with catMap := [], prodIdMap := [], prodNameMap := [] }

/-- Mapping insertion of `migrate_product_categories` lines 216-219: the
normalized name is mapped, and the raw name as well when it differs. -/
def addCatMappings (m : List (String × Nat)) (raw norm : String) (cid : Nat) :
    List (String × Nat) :=
  let m1 := dictInsert m norm cid
  if raw = norm then m1 else dictInsert m1 raw cid

/-- One iteration of the `migrate_product_categories` loop over the
distinct legacy category values.  A falsy value is skipped; a value whose
normalized form is already mapped is skipped WITHOUT mapping its raw form;
otherwise the category is found in the target store or created there, and
both forms are mapped.  The `IntegrityError` branch of the source is
unreachable here: the existence query precedes the insert and the store
keeps names unique in a single-worker run. -/
def catStep (st : MigState) (old_cat_name : Option String) : MigState :=
  match old_cat_name with
  | none => st
  | some raw =>
    if raw = "" then st
    else
      let norm := normalize_category_name (some raw)
      if (dictGet st.catMap norm).isSome then st
      else
        match st.catStore.find? (fun c => c.2 = norm) with
        | some existing =>
          { st with catMap := addCatMappings st.catMap raw norm existing.1 }
        | none =>
          let cid := st.nextCatId
          { st with
            catStore := st.catStore ++ [(cid, norm)],
            nextCatId := cid + 1,
            catMap := addCatMappings st.catMap raw norm cid }

/-- `migrate_product_categories`: fold over the distinct
`category_name_redundant` values read from the legacy store. -/
def migrate_product_categories (st : MigState) (names : List (Option String)) :
    MigState :=
  names.foldl catStep st

/-- Category resolution of `migrate_products` lines 379-406: look the
normalized name up; on a miss fall back to an "Unknown" category, creating
it if the map lacks it.  Creating it when a category named "Unknown"
already exists in the target store raises `IntegrityError` at flush, whose
handler logs and skips the product (`none`). -/
def resolveProductCategory (st : MigState) (normCat : String) :
    MigState × Option Nat :=
  match dictGet st.catMap normCat with
  | some cid => (st, some cid)
  | none =>
    match dictGet st.catMap "Unknown" with
    | some cid => (st, some cid)
    | none =>
      if st.catStore.any (fun c => c.2 = "Unknown") then
        (st, none)
      else
        let cid := st.nextCatId
        ({ st with
           catStore := st.catStore ++ [(cid, "Unknown")],
           nextCatId := cid + 1,
           catMap := dictInsert st.catMap "Unknown" cid }, some cid)

/-- One iteration of the `migrate_products` loop.  `randDraw` is the value
drawn by `random.randint(100, 999)` for this product in this run.  The
product insert raises `IntegrityError` at flush exactly when the generated
SKU already exists (the unique column); the handler rolls back and adopts
the existing row found by SKU. -/
def prodStep (st : MigState) (p : OldProduct × Nat) : MigState :=
  let price := (extract_price_decimal p.1.price_str).getD decimalZeroDefault
  let normCat := normalize_category_name p.1.category_name_redundant
  let resolved := resolveProductCategory st normCat
  match resolved.2 with
  | none => resolved.1
  | some cid =>
    let st := resolved.1
    let sku := generate_sku p.1.id p.2
    match st.prodStore.find? (fun q => q.sku = sku) with
    | some existing =>
      { st with
        prodIdMap := dictInsert st.prodIdMap p.1.id existing.id,
        prodNameMap := dictInsert st.prodNameMap p.1.product_name existing.id }
    | none =>
      let pid := st.nextProdId
      { st with
        prodStore := st.prodStore ++
          [{ id := pid, name := p.1.product_name, sku := sku,
             price := price, categoryId := cid }],
        nextProdId := pid + 1,
        prodIdMap := dictInsert st.prodIdMap p.1.id pid,
        prodNameMap := dictInsert st.prodNameMap p.1.product_name pid }

/-- `migrate_products`: fold over the legacy products paired with their
per-run random SKU suffixes. -/
def migrate_products (st : MigState) (prods : List (OldProduct × Nat)) : MigState :=
  prods.foldl prodStep st

/-- Stages 1 and 3 of one pipeline run (the stages the product-duplication
claims are about). -/
def runCategoriesAndProducts (st : MigState) (names : List (Option String))
    (prods : List (OldProduct × Nat)) : MigState :=
  migrate_products (migrate_product_categories st names) prods

/-! ## Orders stage (migrate_data.py lines 471-644), with an explicit
transactional session

SQLAlchemy semantics modelled: `add` puts a row among the pending objects;
`flush` executes the pending INSERTs inside the open transaction;
`expunge` removes an object from the session but does NOT undo an INSERT
already flushed for it; `commit` flushes and makes the transaction
durable; `rollback` discards both the flushed-but-uncommitted INSERTs and
the pending objects. -/

/-- A row written by the orders stage. -/
inductive ORow where
  | order (id userId shipAddrId billAddrId : Nat) (status : OrderStatusEnum)
  | item (orderId productId : Nat) (quantity : Int) (unitPrice : PyDecimal)
deriving DecidableEq

/-- Transactional session over orders-stage rows. -/
structure OSess where
  committed : List ORow
  inTxn : List ORow
  pending : List ORow
deriving DecidableEq

/-- `session.add`. -/
def OSess.add (s : OSess) (r : ORow) : OSess :=
  { s with pending := s.pending ++ [r] }

/-- `session.flush`. -/
def OSess.flush (s : OSess) : OSess :=
  { s with inTxn := s.inTxn ++ s.pending, pending := [] }

/-- `session.expunge`: forgets the object; a flushed INSERT stays in the
transaction. -/
def OSess.expunge (s : OSess) (r : ORow) : OSess :=
  { s with pending := s.pending.erase r }

/-- `session.commit`. -/
def OSess.commit (s : OSess) : OSess :=
  { committed := s.committed ++ s.inTxn ++ s.pending, inTxn := [], pending := [] }

/-- `session.rollback`. -/
def OSess.rollback (s : OSess) : OSess :=
  { s with inTxn := [], pending := [] }

/-- Empty session. -/
def OSess.empty : OSess :=
  { committed := [], inTxn := [], pending := [] }

/-- Read-only environment of the orders stage: `new_users_by_username`
(username to new user id, built from the target store at stage start), the
target-store addresses queried per order, and
`old_product_name_to_new_product_id_map`. -/
structure OrdersEnv where
  usersByUsername : List (String × Nat)
  addresses : List AddressRow
  prodNameMap : List (String × Nat)

/-- Mutable state of the orders stage.  `skips` counts the warnings logged
by the two skip paths of lines 499-502 and 527-531 (unresolved user, user
without address). -/
structure OrdersState where
  sess : OSess
  nextOrderId : Nat
  processed : Nat
  skips : Nat
deriving DecidableEq

/-- Orders stage over an empty target orders/items table. -/
def ordersInit : OrdersState :=
  { sess := OSess.empty, nextOrderId := 1, processed := 0, skips := 0 }

/-- `user_identifier in new_users_by_username`: a `None` identifier matches
no username. -/
def lookupUser (env : OrdersEnv) (ident : Option String) : Option Nat :=
  match ident with
  | none => none
  | some u => dictGet env.usersByUsername u

/-- `old_product_name_to_new_product_id_map.get(name)` with a possibly
absent name. -/
def lookupProduct (env : OrdersEnv) (name : Option String) : Option Nat :=
  match name with
  | none => none
  | some n => dictGet env.prodNameMap n

/-- `old_order.quantity if old_order.quantity and old_order.quantity > 0
else 1`. -/
def normalizeQuantity (q : Option Int) : Int :=
  match q with
  | none => 1
  | some v => if 0 < v then v else 1

/-- One iteration of the `migrate_orders_and_items` loop.  `B` is
`BATCH_SIZE`; `conflict` is the target writer's uniqueness/structural
check, raising `IntegrityError` when the flushed order row violates a
constraint (spec section 6: the target writer may raise a
uniqueness-conflict signal).  Control flow ported line by line:

  * unresolved user: log a warning, `continue` (lines 499-502);
  * user without addresses: log a warning, `continue` (lines 527-531);
  * order row added and flushed BEFORE the product is resolved
    (lines 554-564); an `IntegrityError` at this flush is handled by
    `new_db.rollback()` (lines 630-632);
  * unresolved product: `expunge` the order object, roll back only when
    the position is a batch boundary, `continue` (lines 596-604);
  * otherwise create the item and commit on batch boundaries
    (lines 606-628). -/
def ordersStep (env : OrdersEnv) (conflict : ORow → Bool) (B : Nat)
    (st : OrdersState) (o : OldOrder) : OrdersState :=
  let st := { st with processed := st.processed + 1 }
  match lookupUser env o.user_identifier_text with
  | none => { st with skips := st.skips + 1 }
  | some uid =>
    let addrs := env.addresses.filter (fun a => a.userId = uid)
    match addrs with
    | [] => { st with skips := st.skips + 1 }
    | a0 :: _ =>
      let shipping := (addrs.find? (fun a => a.isDefaultShipping)).getD a0
      let billing := (addrs.find? (fun a => a.isDefaultBilling)).getD shipping
      let status := map_order_status o.status_text
      let oid := st.nextOrderId
      let orow := ORow.order oid uid shipping.id billing.id status
      if conflict orow then
        { st with sess := ((st.sess.add orow).rollback) }
      else
        let s2 := (st.sess.add orow).flush
        let st := { st with sess := s2, nextOrderId := oid + 1 }
        match lookupProduct env o.product_name_redundant with
        | none =>
          let s3 := st.sess.expunge orow
          let s4 := if st.processed % B = 0 then s3.rollback else s3
          { st with sess := s4 }
        | some pid =>
          let unitPrice :=
            (extract_price_decimal o.unit_price_str_redundant).getD decimalZeroDefault
          let qty := normalizeQuantity o.quantity
          let s3 := st.sess.add (ORow.item oid pid qty unitPrice)
          let s4 := if st.processed % B = 0 then s3.commit else s3
          { st with sess := s4 }

/-- `migrate_orders_and_items`: the loop followed by the final commit of
lines 637-641. -/
def migrate_orders_and_items (env : OrdersEnv) (conflict : ORow → Bool) (B : Nat)
    (st : OrdersState) (orders : List OldOrder) : OrdersState :=
  let st := orders.foldl (ordersStep env conflict B) st
  { st with sess := st.sess.commit }

/-- The constraint check of an execution in which no write conflicts
occur. -/
def noConflict : ORow → Bool := fun _ => false

/-- Number of committed `Order` rows in a session. -/
def countOrders (rows : List ORow) : Nat :=
  rows.countP (fun r => match r with | .order _ _ _ _ _ => true | _ => false)

/-! ## Concrete fixtures used by the theorems below -/

/-- A migrated user "alice" (new id 1) with one default address (id 1). -/
def aliceAddress : AddressRow :=
  { id := 1, userId := 1, isDefaultShipping := true, isDefaultBilling := true }

/-- Orders-stage environment in which "alice" is migrated with her address
and the product map knows "widget" (target id 7). -/
def aliceEnv : OrdersEnv :=
  { usersByUsername := [("alice", 1)],
    addresses := [aliceAddress],
    prodNameMap := [("widget", 7)] }

/-- The same environment with an empty product map: "widget" is
unresolvable. -/
def aliceEnvNoProduct : OrdersEnv :=
  { usersByUsername := [("alice", 1)],
    addresses := [aliceAddress],
    prodNameMap := [] }

/-- A legacy order by "alice" for product "widget". -/
def aliceOrder (i : Nat) (status : Option String) : OldOrder :=
  { id := i, user_identifier_text := some "alice", order_date_str := none,
    status_text := status, product_name_redundant := some "widget",
    quantity := some 1, unit_price_str_redundant := some "9.99" }

/-- A legacy order whose free-text user identifier "bob" matches no
migrated username. -/
def bobOrder : OldOrder :=
  { id := 6, user_identifier_text := some "bob", order_date_str := none,
    status_text := some "pending", product_name_redundant := some "widget",
    quantity := some 1, unit_price_str_redundant := some "9.99" }

/-- A target-writer constraint check that signals `IntegrityError` exactly
for the flushed order row of the SHIPPED record (the third record of the
C3 batch below). -/
def conflictOnShipped : ORow → Bool := fun r =>
  match r with
  | .order _ _ _ _ st => st = .SHIPPED
  | _ => false

/-- One legacy product with a well-formed category and price. -/
def widgetProduct : OldProduct :=
  { id := 1, product_name := "Widget", description := "",
    price_str := some "25.99 USD", category_name_redundant := some "Gadgets",
    created_at_str := none }

/-- A batch of four fully resolvable orders; `conflictOnShipped` makes the
third one fail at flush. -/
def c3Batch : List OldOrder :=
  [aliceOrder 1 (some "pending"), aliceOrder 2 (some "delivered"),
   aliceOrder 3 (some "shipped"), aliceOrder 4 (some "cancelled")]

/-- Orders-stage state for a second run of the pipeline: the committed
rows and the id sequence persist in the target database, while the session
and the per-process counters start fresh. -/
def rerunInit (prev : OrdersState) : OrdersState :=
  { sess := { committed := prev.sess.committed, inTxn := [], pending := [] },
    nextOrderId := prev.nextOrderId, processed := 0, skips := 0 }

end DBMig

namespace DBMig

/-! ## Helper lemmas -/

/-- The record-at-a-time status mapper only ever returns one of the four
values appearing in its lookup lists. -/
lemma map_order_status_range (s : Option String) :
    map_order_status s = .PENDING ∨ map_order_status s = .SHIPPED ∨
    map_order_status s = .DELIVERED ∨ map_order_status s = .CANCELLED := by
  rcases s with _ | s0
  · exact Or.inl rfl
  · simp only [map_order_status]
    split_ifs <;> simp

/-- Looking up the key just inserted. -/
lemma dictGet_insert_self {κ ν : Type} [DecidableEq κ] (m : List (κ × ν)) (k : κ) (v : ν) :
    dictGet (dictInsert m k v) k = some v := by
  simp [dictGet, dictInsert]

/-- Inserting a different key does not change a lookup. -/
lemma dictGet_insert_of_ne {κ ν : Type} [DecidableEq κ] (m : List (κ × ν)) (k k2 : κ)
    (v : ν) (h : k2 ≠ k) :
    dictGet (dictInsert m k v) k2 = dictGet m k2 := by
  have hk : ¬ k = k2 := fun hk => h hk.symm
  simp [dictInsert, dictGet, List.find?, hk]

/-- Insertion preserves the presence of any key. -/
lemma dictGet_insert_isSome {κ ν : Type} [DecidableEq κ] (m : List (κ × ν)) (k k2 : κ)
    (v : ν) (h : (dictGet m k2).isSome = true) :
    (dictGet (dictInsert m k v) k2).isSome = true := by
  by_cases hkk : k2 = k
  · subst hkk; simp [dictGet_insert_self]
  · rw [dictGet_insert_of_ne m k k2 v hkk]; exact h

/-- The two-form mapping insertion preserves the presence of any key. -/
lemma addCatMappings_isSome (m : List (String × Nat)) (raw norm : String) (cid : Nat)
    (k : String) (h : (dictGet m k).isSome = true) :
    (dictGet (addCatMappings m raw norm cid) k).isSome = true := by
  unfold addCatMappings
  split
  · exact dictGet_insert_isSome _ _ _ _ h
  · exact dictGet_insert_isSome _ _ _ _ (dictGet_insert_isSome _ _ _ _ h)

/-- The two-form mapping insertion makes the normalized form present. -/
lemma addCatMappings_norm_isSome (m : List (String × Nat)) (raw norm : String)
    (cid : Nat) :
    (dictGet (addCatMappings m raw norm cid) norm).isSome = true := by
  unfold addCatMappings
  split
  · simp [dictGet_insert_self]
  · exact dictGet_insert_isSome _ _ _ _ (by simp [dictGet_insert_self])

/-- One categories-stage iteration never removes a key from the category
map. -/
lemma catStep_isSome (st : MigState) (n : Option String) (k : String)
    (h : (dictGet st.catMap k).isSome = true) :
    (dictGet (catStep st n).catMap k).isSome = true := by
  unfold catStep
  rcases n with _ | raw
  · exact h
  · by_cases hr : raw = ""
    · simpa [hr] using h
    · simp only [hr, if_false]
      split
      · exact h
      · split <;> exact addCatMappings_isSome _ _ _ _ _ h

/-- After its own iteration, a non-falsy legacy name is resolvable through
its normalized form. -/
lemma catStep_self_isSome (st : MigState) (raw : String) (hr : raw ≠ "") :
    (dictGet (catStep st (some raw)).catMap
      (normalize_category_name (some raw))).isSome = true := by
  unfold catStep
  simp only [hr, if_false]
  split
  · next hsome => exact hsome
  · split <;> exact addCatMappings_norm_isSome _ _ _ _

/-- The categories-stage fold never removes a key from the category map. -/
lemma migrate_product_categories_isSome (names : List (Option String)) (st : MigState)
    (k : String) (h : (dictGet st.catMap k).isSome = true) :
    (dictGet (migrate_product_categories st names).catMap k).isSome = true := by
  induction names generalizing st with
  | nil => exact h
  | cons n rest ih => exact ih (catStep st n) (catStep_isSome st n k h)

/-! ## Session lemmas -/

/-- Committed rows only ever grow: one orders-stage iteration appends to
the committed list, whatever the environment, constraint check, batch size
and state. -/
lemma ordersStep_committed_mono (env : OrdersEnv) (conflict : ORow → Bool) (B : Nat)
    (st : OrdersState) (o : OldOrder) :
    ∃ t, (ordersStep env conflict B st o).sess.committed = st.sess.committed ++ t := by
  unfold ordersStep
  dsimp only [OSess.add, OSess.flush, OSess.expunge, OSess.rollback, OSess.commit]
  repeat' split
  all_goals
    first
      | exact ⟨[], (List.append_nil _).symm⟩
      | exact ⟨_, List.append_assoc _ _ _⟩

/-! ## Claim theorems -/

/-- C1: when the redundant product name of a legacy order resolves to no
migrated product, the source still commits the Order row.  The order row
is added and flushed BEFORE the product lookup; `expunge` removes only the
session object, not the flushed INSERT, and at a non-boundary position no
rollback runs, so the final commit persists an Order with no OrderItem —
the order is NOT skipped entirely, refuting the claim on the code and
confirming the defect flagged by the spec. -/
theorem C1_unresolved_product_order_still_committed :
    (migrate_orders_and_items aliceEnvNoProduct noConflict 500 ordersInit
      [aliceOrder 1 (some "pending")]).sess.committed
      = [ORow.order 1 1 1 1 .PENDING] := by decide

/-- C2: the pipeline is not idempotent.  Running the categories and
products stages a second time (fresh process, same legacy data, no reset)
duplicates the product, because the second run draws a different random
SKU suffix and the insert therefore does not conflict; and re-running the
orders stage over an already-migrated order always duplicates it, as the
orders stage performs no idempotence check at all. -/
theorem C2_second_run_not_idempotent :
    (runCategoriesAndProducts migInit [some "Gadgets"]
      [(widgetProduct, 100)]).prodStore.length = 1
    ∧ (runCategoriesAndProducts
        (freshMaps (runCategoriesAndProducts migInit [some "Gadgets"]
          [(widgetProduct, 100)]))
        [some "Gadgets"] [(widgetProduct, 101)]).prodStore.length = 2
    ∧ countOrders (migrate_orders_and_items aliceEnv noConflict 500 ordersInit
        [aliceOrder 1 (some "pending")]).sess.committed = 1
    ∧ countOrders (migrate_orders_and_items aliceEnv noConflict 500
        (rerunInit (migrate_orders_and_items aliceEnv noConflict 500 ordersInit
          [aliceOrder 1 (some "pending")]))
        [aliceOrder 1 (some "pending")]).sess.committed = 2 := by decide

/-- C3 counterexample: an `IntegrityError` on the third record of a batch
of four (batch size 500, so no intermediate commit) rolls back the WHOLE
open transaction: the first two records, already flushed but not yet
committed, are lost and never re-added, so the other records of the batch
are not all committed, contrary to the claim. -/
theorem C3_failure_discards_other_uncommitted_records :
    (migrate_orders_and_items aliceEnv conflictOnShipped 500 ordersInit
      c3Batch).sess.committed
      = [ORow.order 3 1 1 1 .CANCELLED, ORow.item 3 7 1 { units := 999, scale := 2 }]
    ∧ ORow.order 1 1 1 1 .PENDING ∉
        (migrate_orders_and_items aliceEnv conflictOnShipped 500 ordersInit
          c3Batch).sess.committed
    ∧ ORow.order 2 1 1 1 .DELIVERED ∉
        (migrate_orders_and_items aliceEnv conflictOnShipped 500 ordersInit
          c3Batch).sess.committed := by decide

/-- C3 amended: a write failure on one record rolls back every uncommitted
write since the last batch commit (the failing record's and those of other
records in the same commit window), already-committed rows are never
removed by any iteration, and the run continues with the next record
(here: the fourth record, processed after the failure, is committed). -/
theorem C3_rollback_window_and_continuation :
    (∀ (env : OrdersEnv) (conflict : ORow → Bool) (B : Nat) (st : OrdersState)
      (o : OldOrder),
      ∃ t, (ordersStep env conflict B st o).sess.committed
        = st.sess.committed ++ t)
    ∧ ORow.order 3 1 1 1 .CANCELLED ∈
        (migrate_orders_and_items aliceEnv conflictOnShipped 500 ordersInit
          c3Batch).sess.committed :=
  ⟨ordersStep_committed_mono, by decide⟩

/-- C4: the SKU of the record-at-a-time products stage is not a function
of the legacy identifier alone: it embeds the value drawn from
`random.randint(100, 999)`, so two runs over the same legacy product can
yield different SKU strings (the pandas variant's SKU, in contrast, is
computed from the legacy id and name only). -/
theorem C4_sku_embeds_random_suffix :
    generate_sku 1 100 = "SKU-00001-100"
    ∧ generate_sku 1 101 = "SKU-00001-101"
    ∧ generate_sku 1 100 ≠ generate_sku 1 101
    ∧ generate_sku_pd 1 "Widget" = "SKU-PD-1-WIDGET" := by decide

/-- C5 counterexample: the columnar variant does not produce identical
target data.  Its category normalizer title-cases every word where the
record-at-a-time one capitalizes only the first letter, its fallback for
absent input is "Unknown Category" versus "Unknown", and its status map
sends "PROCESSING" to PROCESSING where the record-at-a-time mapper sends
it to PENDING. -/
theorem C5_variants_produce_different_data :
    normalize_category_name (some "home theater") = "Home theater"
    ∧ normalize_category_name_pd (some "home theater") = "Home Theater"
    ∧ ("Home theater" : String) ≠ "Home Theater"
    ∧ normalize_category_name none = "Unknown"
    ∧ normalize_category_name_pd none = "Unknown Category"
    ∧ map_order_status (some "PROCESSING") = .PENDING
    ∧ map_order_status_pd (some "PROCESSING") = .PROCESSING := by decide

/-- C5 amended: the two variants agree on the four canonical lowercase
status strings, but they are not equivalent: the columnar status map can
produce PROCESSING and REFUNDED, which the record-at-a-time mapper never
returns, and the two category normalizers use different case transforms
and different fallback names for absent input. -/
theorem C5_partial_agreement_only :
    map_order_status (some "pending") = map_order_status_pd (some "pending")
    ∧ map_order_status (some "shipped") = map_order_status_pd (some "shipped")
    ∧ map_order_status (some "delivered") = map_order_status_pd (some "delivered")
    ∧ map_order_status (some "cancelled") = map_order_status_pd (some "cancelled")
    ∧ map_order_status_pd (some "Returned?") = .REFUNDED
    ∧ (∀ s : Option String,
        map_order_status s ≠ .PROCESSING ∧ map_order_status s ≠ .REFUNDED)
    ∧ normalize_category_name none ≠ normalize_category_name_pd none := by
  refine ⟨by decide, by decide, by decide, by decide, by decide, ?_, by decide⟩
  intro s
  rcases map_order_status_range s with h | h | h | h <;> rw [h] <;>
    exact ⟨by decide, by decide⟩

/-- C6 counterexample: a price string with a leading minus sign does not
parse to a negative decimal.  The cleaned string "-5.99" is split on the
dash and its FIRST component is the empty string, so `Decimal` raises and
the parser returns the sentinel. -/
theorem C6_leading_minus_gives_sentinel :
    extract_price_decimal (some "-5.99") = none
    ∧ (extract_price_decimal (some "-5.99")).map PyDecimal.toRat
        ≠ some (-(599 / 100 : ℚ)) := by
  have h : extract_price_decimal (some "-5.99") = none := by decide
  rw [h]
  exact ⟨rfl, by simp⟩

/-- C6 amended: the parser keeps digits, dots and dashes, takes the part
of the cleaned string before the first dash, and returns the sentinel when
the input is falsy, nothing survives cleaning, or the remaining literal is
malformed; "25.99 USD" parses to 25.99 and "10.99-12.99" to 10.99, while a
leading minus sign makes the first dash component empty and hence the
result the sentinel. -/
theorem C6_price_parser_examples :
    (extract_price_decimal (some "25.99 USD")).map PyDecimal.toRat
        = some (2599 / 100 : ℚ)
    ∧ (extract_price_decimal (some "10.99-12.99")).map PyDecimal.toRat
        = some (1099 / 100 : ℚ)
    ∧ extract_price_decimal (some "contact us") = none
    ∧ extract_price_decimal (some "") = none
    ∧ extract_price_decimal none = none := by
  have h1 : extract_price_decimal (some "25.99 USD")
      = some { units := 2599, scale := 2 } := by decide
  have h2 : extract_price_decimal (some "10.99-12.99")
      = some { units := 1099, scale := 2 } := by decide
  refine ⟨?_, ?_, by decide, by decide, rfl⟩
  · rw [h1]
    norm_num [PyDecimal.toRat, Option.map_some']
  · rw [h2]
    norm_num [PyDecimal.toRat, Option.map_some']

/-- C7: `parse_address` is not total on absent input: `None.split(',')`
is evaluated before the falsiness guard, so an absent combined address
raises `AttributeError` instead of returning the five-component
dictionary; for every actual string input (the empty string included) the
function does return the five components without raising. -/
theorem C7_parse_address_raises_on_none :
    parse_address none = Except.error PyErr.attributeError
    ∧ ∀ s : String, (parse_address (some s)).isOk = true := by
  refine ⟨rfl, ?_⟩
  intro s
  simp only [parse_address]
  split <;> rfl

/-- C8 counterexample: a later variant whose normalized form is already
mapped is skipped WITHOUT being mapped under its raw form: after
processing "Electronics" then "electronics", the raw key "electronics" is
absent from the category identity map even though the name was processed
and normalizes to "Electronics". -/
theorem C8_later_raw_variant_not_mapped :
    dictGet (migrate_product_categories migInit
      [some "Electronics", some "electronics"]).catMap "electronics" = none
    ∧ normalize_category_name (some "electronics") = "Electronics" := by decide

/-- C8 amended: after the categories stage every processed (non-falsy)
legacy name is resolvable through its NORMALIZED form — names normalizing
identically therefore resolve to the same single target identifier — and
the three variants "electronics", "Electronics", " Electronics " produce
exactly one target category, to which their shared normalized form maps;
only the first-processed variant is additionally mapped under its raw
form. -/
theorem C8_normalized_resolution_unique :
    (∀ (st : MigState) (names : List (Option String)) (a : String),
        some a ∈ names → a ≠ "" →
        (dictGet (migrate_product_categories st names).catMap
          (normalize_category_name (some a))).isSome = true)
    ∧ (migrate_product_categories migInit
        [some "electronics", some "Electronics", some " Electronics "]).catStore
        = [(1, "Electronics")]
    ∧ dictGet (migrate_product_categories migInit
        [some "electronics", some "Electronics", some " Electronics "]).catMap
        "Electronics" = some 1 := by
  refine ⟨?_, by decide, by decide⟩
  intro st names a
  induction names generalizing st with
  | nil => intro hmem _; cases hmem
  | cons n rest ih =>
    intro hmem hne
    rcases List.mem_cons.mp hmem with hh | ht
    · subst hh
      exact migrate_product_categories_isSome rest (catStep st (some a)) _
        (catStep_self_isSome st a hne)
    · exact ih (catStep st n) ht hne

/-- C8 witness: instantiation of the universal part at a concrete run. -/
theorem C8_normalized_resolution_unique_witness :
    (dictGet (migrate_product_categories migInit [some "Tv"]).catMap
      (normalize_category_name (some "Tv"))).isSome = true :=
  C8_normalized_resolution_unique.1 migInit [some "Tv"] "Tv"
    (List.mem_singleton.mpr rfl) (by decide)

/-- C9: an order whose free-text user identifier resolves to no migrated
username leaves the session (committed, in-transaction and pending rows)
untouched and logs exactly one skip; the same holds when the resolved
user has no address rows in the target store. -/
theorem C9_order_skip_rule :
    ∀ (env : OrdersEnv) (conflict : ORow → Bool) (B : Nat) (st : OrdersState)
      (o : OldOrder),
      (lookupUser env o.user_identifier_text = none →
        ordersStep env conflict B st o
          = { st with processed := st.processed + 1, skips := st.skips + 1 })
      ∧ (∀ uid, lookupUser env o.user_identifier_text = some uid →
          env.addresses.filter (fun a => a.userId = uid) = [] →
          ordersStep env conflict B st o
            = { st with processed := st.processed + 1, skips := st.skips + 1 }) := by
  intro env conflict B st o
  constructor
  · intro h
    unfold ordersStep
    rw [h]
  · intro uid h1 h2
    unfold ordersStep
    rw [h1]
    dsimp only
    rw [h2]

/-- C9 witness: the order of "bob", who is not a migrated user, is skipped
with no write and one logged skip. -/
theorem C9_order_skip_rule_witness :
    ordersStep aliceEnv noConflict 500 ordersInit bobOrder
      = { ordersInit with processed := 1, skips := 1 } :=
  (C9_order_skip_rule aliceEnv noConflict 500 ordersInit bobOrder).1 (by decide)

/-- C10: the record-at-a-time status mapper only returns PENDING, SHIPPED,
DELIVERED or CANCELLED — never PROCESSING or REFUNDED — and maps
"processing" to PENDING. -/
theorem C10_status_mapper_range :
    (∀ s : Option String,
      map_order_status s = .PENDING ∨ map_order_status s = .SHIPPED ∨
      map_order_status s = .DELIVERED ∨ map_order_status s = .CANCELLED)
    ∧ map_order_status (some "processing") = .PENDING :=
  ⟨map_order_status_range, by decide⟩

end DBMig
